import Mathlib

/-
  Verification of the BFS scheduler core (kernel/sched_bfs.c).

  Shallow embedding: the scheduler's C functions are translated into pure
  Lean functions over explicit state records.  Machine integers are
  modelled as Nat (unsigned counters, u64 deadlines) and Int (signed
  quantities such as time slices); the two places where u64 wrap-around
  arithmetic matters (deadline offsetting) use an explicit mod 2^64.
  Pointer comparison against the per-cpu idle task is modelled with
  Option (the idle task is never queued).  Per-task TIF_NEED_RESCHED
  effects on other cpus are reported as explicit action values.
-/

namespace BFS

/-- Scheduling policy numbers from include/linux/sched.h:
SCHED_NORMAL 0, SCHED_FIFO 1, SCHED_RR 2, SCHED_BATCH 3, SCHED_ISO 4,
SCHED_IDLEPRIO 5. -/
def sched_normal : Nat := 0

def sched_fifo : Nat := 1

def sched_rr : Nat := 2

def sched_batch : Nat := 3

def sched_iso : Nat := 4

def sched_idleprio : Nat := 5

/-- MAX_RT_PRIO from the kernel headers (MAX_USER_RT_PRIO = 100). -/
def max_rt_prio : Nat := 100

/-- PRIO_RANGE: the 40 nice levels. -/
def prio_range : Nat := 40

/-- ISO_PRIO = MAX_RT_PRIO: the single SCHED_ISO band. -/
def iso_prio : Nat := max_rt_prio

/-- NORMAL_PRIO = MAX_RT_PRIO + 1: the SCHED_NORMAL / SCHED_BATCH band. -/
def normal_prio : Nat := max_rt_prio + 1

/-- IDLE_PRIO = MAX_RT_PRIO + 2: the SCHED_IDLEPRIO band. -/
def idle_prio : Nat := max_rt_prio + 2

/-- PRIO_LIMIT = IDLE_PRIO + 1: one past the last band; used as the idle
sentinel priority of an idle cpu. -/
def prio_limit : Nat := idle_prio + 1

/-- RESCHED_US: reschedule if fewer than this many microseconds left. -/
def resched_us : Nat := 100

/-- HZ (config dependent; 100 here).  Only the clamp ceiling in niffy_diff
depends on it and no claim depends on its exact value. -/
def hz : Nat := 100

/-- TASK_RUNNING state value. -/
def task_running_state : Nat := 0

/-- WF_SYNC wake flag. -/
def wf_sync : Nat := 1

/-- HALF_JIFFY_US = 1000000 / HZ / 2. -/
def half_jiffy_us : Nat := 1000000 / hz / 2

/-- MS_TO_NS(TIME) = TIME << 20 (sched_bfs.c line 117). -/
def ms_to_ns (t : Nat) : Nat := t <<< 20

/-- MS_TO_US(TIME) = TIME << 10 (sched_bfs.c line 118). -/
def ms_to_us (t : Nat) : Nat := t <<< 10

/-- US_TO_NS(TIME) = TIME >> 10 (sched_bfs.c line 119).  Note the source
right-shifts here (a microseconds value is shifted DOWN, not up), so
us_to_ns 1 = 0.  Division by 1024 equals the C arithmetic shift for the
nonnegative arguments this is applied to. -/
def us_to_ns (t : Int) : Int := t / 1024

/-- NS_TO_US(TIME) = TIME >> 10 (sched_bfs.c line 121), as division for the
nonnegative arguments it is applied to. -/
def ns_to_us (t : Int) : Int := t / 1024

/-- JIFFIES_TO_NS(TIME) = TIME * (1000000000 / HZ). -/
def jiffies_to_ns (t : Int) : Int := t * (1000000000 / (hz : Int))

/-- prio_ratios as initialised by sched_init: prio_ratios[0] = 128 and
prio_ratios[i] = prio_ratios[i-1] * 11 / 10 (C integer division); the
source fills indices 0 .. PRIO_RANGE-1. -/
def prio_ratios : Nat → Nat
  | 0 => 128
  | i + 1 => prio_ratios i * 11 / 10

/-- timeslice(): the quota handed to tasks on refill, MS_TO_US(rr_interval). -/
def timeslice (rr_interval : Nat) : Nat := ms_to_us rr_interval

/-- Scheduler-owned task fields (struct task_struct, the fields sched_bfs.c
uses).  run_list membership is tracked by the queued flag; oncpu is the
on-cpu flag; the four predicate flags stand for the external predicates
freezing(), signal_pending(), task_contributes_to_load() and
PF_EXITING. -/
structure Task where
  policy : Nat
  static_prio : Int
  rt_priority : Nat
  prio : Nat
  normal_prio : Nat
  deadline : Nat
  time_slice : Int
  last_ran : Nat
  cpus_allowed : List Nat
  cpu : Nat
  state : Nat
  oncpu : Bool
  queued : Bool
  freezing : Bool
  signal_pending : Bool
  contributes_to_load : Bool
  exiting : Bool
  sched_reset_on_fork : Bool
  deriving DecidableEq, Repr

/-- struct global_rq: the single global runqueue.  nr_uninterruptible is an
unsigned long in C; modelled as Int (its wrap-around is immaterial to the
claims). -/
structure GlobalRq where
  nr_running : Nat
  nr_uninterruptible : Int
  qnr : Nat
  niffies : Nat
  last_jiffy : Nat
  queue : Nat → List Task
  prio_bitmap : Nat → Bool
  iso_ticks : Nat
  iso_refractory : Bool
  cpu_idle_map : Nat → Bool
  idle_cpus : Bool

/-- struct rq: the per-cpu runqueue projection of the running task. -/
structure Rq where
  cpu : Nat
  clock : Nat
  old_clock : Nat
  last_niffy : Nat
  rq_time_slice : Int
  rq_deadline : Nat
  rq_prio : Nat
  rq_policy : Nat
  rq_last_ran : Nat
  timekeep_clock : Nat
  dither : Bool
  deriving DecidableEq, Repr

/-- rt_prio(prio): prio < MAX_RT_PRIO. -/
def rt_prio (prio : Nat) : Bool := decide (prio < max_rt_prio)

/-- rt_task(p). -/
def rt_task (p : Task) : Bool := rt_prio p.prio

/-- is_rt_policy(policy). -/
def is_rt_policy (policy : Nat) : Bool := policy == sched_fifo || policy == sched_rr

/-- has_rt_policy(p). -/
def has_rt_policy (p : Task) : Bool := is_rt_policy p.policy

/-- batch_task(p). -/
def batch_task (p : Task) : Bool := p.policy == sched_batch

/-- idleprio_task(p). -/
def idleprio_task (p : Task) : Bool := p.policy == sched_idleprio

/-- iso_task(p). -/
def iso_task (p : Task) : Bool := p.policy == sched_iso

/-- rt_queue(rq). -/
def rt_queue (rq : Rq) : Bool := rt_prio rq.rq_prio

/-- iso_queue(rq). -/
def iso_queue (rq : Rq) : Bool := rq.rq_policy == sched_iso

/-- rq_running_iso(rq): rq->rq_prio == ISO_PRIO. -/
def rq_running_iso (rq : Rq) : Bool := rq.rq_prio == iso_prio

/-- NICE_TO_PRIO(nice) = MAX_RT_PRIO + nice + 20. -/
def nice_to_prio (nice : Int) : Int := (max_rt_prio : Int) + nice + 20

/-- PRIO_TO_NICE(prio) = prio - MAX_RT_PRIO - 20. -/
def prio_to_nice (prio : Int) : Int := prio - (max_rt_prio : Int) - 20

/-- TASK_NICE(p) = PRIO_TO_NICE(p->static_prio);
task_nice() returns exactly this. -/
def task_nice (p : Task) : Int := prio_to_nice p.static_prio

/-- TASK_USER_PRIO(p) = p->static_prio - MAX_RT_PRIO, the [0,39] index. -/
def task_user_prio (p : Task) : Nat := (p.static_prio - (max_rt_prio : Int)).toNat

/-- task_prio_ratio(p) = prio_ratios[TASK_USER_PRIO(p)]. -/
def task_prio_ratio (p : Task) : Nat := prio_ratios (task_user_prio p)

/-- task_timeslice(p) = rr_interval * task_prio_ratio(p) / 128. -/
def task_timeslice (rr_interval : Nat) (p : Task) : Nat :=
  rr_interval * task_prio_ratio p / 128

/-- deadline_before(deadline, time): u64 comparison. -/
def deadline_before (deadline time : Nat) : Bool := decide (deadline < time)

/-- deadline_after(deadline, time): u64 comparison. -/
def deadline_after (deadline time : Nat) : Bool := decide (deadline > time)

/-- task_queued(p): p->run_list is non-empty. -/
def task_queued (p : Task) : Bool := p.queued

/-- task_running(p): p->oncpu. -/
def task_running (p : Task) : Bool := p.oncpu

/-- niffy_diff(niff_diff, jiff_diff): sanity clamp on a clock delta.  If the
delta is below 1 ns or above JIFFIES_TO_NS(jiff_diff + 1) it is replaced by
US_TO_NS(1) — which, because US_TO_NS right-shifts, is 0, not the 1 us the
adjacent source comment intends. -/
def niffy_diff (nd : Int) (jd : Int) : Int :=
  let max_diff := jiffies_to_ns (jd + 1)
  if nd < 1 || max_diff < nd then us_to_ns 1 else nd

/-- update_clocks(rq) (the SMP variant), with the externally sampled
sched_clock_cpu value (update_rq_clock stores it into rq->clock) and the
current jiffies as inputs.  grq.last_jiffy += jdiff lands on the sampled
jiffies value. -/
def update_clocks (g : GlobalRq) (rq : Rq) (sched_clock jiffies : Nat) :
    GlobalRq × Rq :=
  let clock := sched_clock
  let ndiff0 : Int := (clock : Int) - (rq.old_clock : Int)
  let ndiff1 : Int := ndiff0 - ((g.niffies : Int) - (rq.last_niffy : Int))
  let jdiff : Int := (jiffies : Int) - (g.last_jiffy : Int)
  let nd := niffy_diff ndiff1 jdiff
  let niffies1 := ((g.niffies : Int) + nd).toNat
  ({g with last_jiffy := ((g.last_jiffy : Int) + jdiff).toNat, niffies := niffies1},
   {rq with clock := clock, old_clock := clock, last_niffy := niffies1})

/-- A sequence of update_clocks calls, each with its own sampled clock and
jiffies value. -/
def update_clocks_run (g : GlobalRq) (rq : Rq) : List (Nat × Nat) → GlobalRq × Rq
  | [] => (g, rq)
  | ev :: rest =>
    let gr := update_clocks g rq ev.1 ev.2
    update_clocks_run gr.1 gr.2 rest

/-- idleprio_suitable(p): none of freezing, pending signal, contributing to
load, exiting. -/
def idleprio_suitable (p : Task) : Bool :=
  !p.freezing && !p.signal_pending && !p.contributes_to_load && !p.exiting

/-- isoprio_suitable(): the iso_refractory flag is not set. -/
def isoprio_suitable (g : GlobalRq) : Bool := !g.iso_refractory

/-- enqueue_task(p): derive the band from policy and suitability unless the
task holds an rt priority (possibly PI-boosted), then set the band's bitmap
bit and append to the band's list (list_add_tail).  The returned task is p
as linked (queued). -/
def enqueue_task (g : GlobalRq) (p : Task) : GlobalRq × Task :=
  let p1 :=
    if !rt_task p then
      (if (idleprio_task p && idleprio_suitable p) || (iso_task p && isoprio_suitable g)
       then {p with prio := p.normal_prio}
       else {p with prio := normal_prio})
    else p
  let p2 := {p1 with queued := true}
  ({g with
      prio_bitmap := fun i => if i = p2.prio then true else g.prio_bitmap i,
      queue := fun i => if i = p2.prio then g.queue i ++ [p2] else g.queue i},
   p2)

/-- dequeue_task(p): list_del_init, then clear the band's bitmap bit if the
band became empty.  The list removal is physical in C; under the invariant
that a task is linked in band p->prio this is removal of p from that
band. -/
def dequeue_task (g : GlobalRq) (p : Task) : GlobalRq :=
  let q1 := (g.queue p.prio).erase p
  {g with
    queue := fun i => if i = p.prio then q1 else g.queue i,
    prio_bitmap := fun i =>
      if i = p.prio then (if q1.isEmpty then false else g.prio_bitmap i)
      else g.prio_bitmap i}

/-- set_task_cpu(p, cpu). -/
def set_task_cpu (p : Task) (cpu : Nat) : Task := {p with cpu := cpu}

/-- take_task(rq, p): set_task_cpu to rq's cpu, dequeue from the global
runqueue, dec_qnr.  Returns the updated global runqueue and the task as it
leaves the queue. -/
def take_task (g : GlobalRq) (rq : Rq) (p : Task) : GlobalRq × Task :=
  let p1 := set_task_cpu p rq.cpu
  let g1 := dequeue_task g p
  ({g1 with qnr := g1.qnr - 1}, {p1 with queued := false})

/-- normal_prio(p): static mapping from policy to band. -/
def normal_prio_of (p : Task) : Nat :=
  if has_rt_policy p then max_rt_prio - 1 - p.rt_priority
  else if idleprio_task p then idle_prio
  else if iso_task p then iso_prio
  else normal_prio

/-- effective_prio(p): sets p->normal_prio = normal_prio(p) and returns the
rt-boost-preserving effective priority; modelled with the caller's
assignment p->prio = effective_prio(p) folded in. -/
def effective_prio (p : Task) : Task :=
  let p1 := {p with normal_prio := normal_prio_of p}
  if !rt_prio p1.prio then {p1 with prio := p1.normal_prio} else p1

/-- cache_distance(task_rq, rq, p): rq->cpu_locality[cpu_of(task_rq)] - 2;
if positive, task_timeslice(p) shifted left by it, else 0.  locality is the
read-mostly distance table, indexed locality (rq cpu) (task cpu). -/
def cache_distance (rr_interval : Nat) (locality : Nat → Nat → Nat)
    (task_rq_cpu rq_cpu : Nat) (p : Task) : Nat :=
  let l := locality rq_cpu task_rq_cpu
  if 2 < l then task_timeslice rr_interval p <<< (l - 2) else 0

/-- needs_other_cpu(p, cpu): cpu not in p->cpus_allowed. -/
def needs_other_cpu (p : Task) (cpu : Nat) : Bool := !(p.cpus_allowed.contains cpu)

/-- First task in list order whose affinity admits cpu. -/
def first_affine (cpu : Nat) (l : List Task) : Option Task :=
  l.find? (fun q => q.cpus_allowed.contains cpu)

/-- find_next_bit worker: first index at or after idx, below limit, whose
bit is set; limit if none.  Fuel-structured recursion (fuel bounds the
remaining indices to inspect). -/
def fnb_go (bm : Nat → Bool) (limit : Nat) : Nat → Nat → Nat
  | 0, _ => limit
  | fuel + 1, idx =>
    if limit ≤ idx then limit
    else if bm idx then idx else fnb_go bm limit fuel (idx + 1)

/-- find_next_bit(bitmap, limit, idx). -/
def find_next_bit (bm : Nat → Bool) (limit idx : Nat) : Nat :=
  fnb_go bm limit (limit - idx) idx

/-- The body of earliest_deadline_task's list_for_each_entry scan of one
band.  An rt band (idx < MAX_RT_PRIO) returns its first affinity-acceptable
task (goto out_take, Sum.inl).  Otherwise the scan folds the
earliest-adjusted-deadline candidate; edt == idle is modelled by none. -/
def edt_scan (rr_interval : Nat) (locality : Nat → Nat → Nat) (cpu idx : Nat) :
    List Task → Option Task × Nat → Sum Task (Option Task × Nat)
  | [], acc => Sum.inr acc
  | q :: rest, acc =>
    if needs_other_cpu q cpu then edt_scan rr_interval locality cpu idx rest acc
    else if idx < max_rt_prio then Sum.inl q
    else
      let dl := q.deadline + cache_distance rr_interval locality q.cpu cpu q
      match acc with
      | (none, _) => edt_scan rr_interval locality cpu idx rest (some q, dl)
      | (some e, earliest) =>
        if deadline_before dl earliest then
          edt_scan rr_interval locality cpu idx rest (some q, dl)
        else edt_scan rr_interval locality cpu idx rest (some e, earliest)

/-- The retry loop of earliest_deadline_task: find the next set bitmap bit,
scan that band, and either take the chosen task (out_take), advance to the
next band when nothing acceptable was found, or fall out at PRIO_LIMIT.
Fuel bounds the number of retries (at most PRIO_LIMIT). -/
def edt_go (rr_interval : Nat) (locality : Nat → Nat → Nat) (g : GlobalRq) (rq : Rq) :
    Nat → Nat → Option Task → Nat → Option Task × GlobalRq
  | 0, _, edt, _ => (edt, g)
  | fuel + 1, idx, edt, earliest =>
    let j := find_next_bit g.prio_bitmap prio_limit idx
    if prio_limit ≤ j then (edt, g)
    else
      match edt_scan rr_interval locality rq.cpu j (g.queue j) (edt, earliest) with
      | Sum.inl q => (some (take_task g rq q).2, (take_task g rq q).1)
      | Sum.inr (some e, _) => (some (take_task g rq e).2, (take_task g rq e).1)
      | Sum.inr (none, e2) =>
        if j + 1 < prio_limit then edt_go rr_interval locality g rq fuel (j + 1) none e2
        else (none, g)

/-- earliest_deadline_task(rq, idle): scan from bit 0 with edt initialised
to the idle task (none); returns the chosen task (idle when the queue holds
nothing suitable) and the resulting global runqueue. -/
def earliest_deadline_task (rr_interval : Nat) (locality : Nat → Nat → Nat)
    (g : GlobalRq) (rq : Rq) (idle : Task) : Task × GlobalRq :=
  match edt_go rr_interval locality g rq prio_limit 0 none 0 with
  | (some q, g1) => (q, g1)
  | (none, g1) => (idle, g1)

/-- can_preempt(p, prio, deadline, policy): better priority number wins;
equal priority falls through to an earlier-deadline test.  The policy
argument is unused, exactly as in the source. -/
def can_preempt (p : Task) (prio : Int) (deadline : Nat) (_policy : Nat) : Bool :=
  if (p.prio : Int) < prio then true
  else if prio < (p.prio : Int) then false
  else if !deadline_before p.deadline deadline then false
  else true

/-- The machine-wide read-only inputs of try_preempt: per-cpu runqueues,
the online map, the locality table and rr_interval. -/
structure Sys where
  nr_cpu_ids : Nat
  rqs : Nat → Rq
  online : Nat → Bool
  locality : Nat → Nat → Nat
  rr_interval : Nat

/-- suitable_idle_cpus(p): some idle cpu intersects p->cpus_allowed. -/
def suitable_idle_cpus (g : GlobalRq) (p : Task) : Bool :=
  g.idle_cpus && p.cpus_allowed.any (fun c => g.cpu_idle_map c)

/-- online_cpus(p) (CONFIG_HOTPLUG_CPU variant): the online map intersects
p->cpus_allowed. -/
def online_cpus (sys : Sys) (p : Task) : Bool := p.cpus_allowed.any sys.online

/-- for_each_cpu_mask over online ∩ cpus_allowed, in ascending cpu order. -/
def cpu_list (sys : Sys) (p : Task) : List Nat :=
  (List.range sys.nr_cpu_ids).filter (fun c => sys.online c && p.cpus_allowed.contains c)

/-- u64 subtraction with wrap-around. -/
def u64_sub (a b : Nat) : Nat := (((a : Int) - (b : Int)) % (2 ^ 64)).toNat

/-- The scan of try_preempt that picks the worst (highest prio number,
latest offset deadline) running task among the candidate cpus; the
accumulator carries latest_deadline, highest_prio (int, initially -1) and
highest_prio_rq. -/
def tp_fold (sys : Sys) (p : Task) (this_cpu : Nat) :
    List Nat → Nat × Int × Rq → Nat × Int × Rq
  | [], acc => acc
  | c :: rest, acc =>
    let rq := sys.rqs c
    let rq_prio := rq.rq_prio
    if (rq_prio : Int) < acc.2.1 then tp_fold sys p this_cpu rest acc
    else
      let offset_deadline :=
        u64_sub rq.rq_deadline (cache_distance sys.rr_interval sys.locality this_cpu c p)
      if acc.2.1 < (rq_prio : Int) ||
         ((rq_prio : Int) == acc.2.1 && deadline_after offset_deadline acc.1) then
        tp_fold sys p this_cpu rest (offset_deadline, (rq_prio : Int), rq)
      else tp_fold sys p this_cpu rest acc

/-- The busiest-cpu choice of try_preempt: fold over the candidate cpus
starting from latest_deadline = 0, highest_prio = -1, highest_prio_rq =
this_rq. -/
def choose_busiest (sys : Sys) (p : Task) (this_rq : Rq) : Nat × Int × Rq :=
  tp_fold sys p this_rq.cpu (cpu_list sys p) (0, -1, this_rq)

/-- The externally visible outcome of try_preempt. -/
inductive PreemptAction where
  | resched_best_idle
  | ret
  | resched_curr (cpu : Nat)
  deriving DecidableEq, Repr

/-- try_preempt(p, this_rq) (SMP): wake an idle cpu when one suits p;
IDLEPRIO tasks never preempt; otherwise pick the worst busy cpu among
online ∩ allowed and resched its current task exactly when can_preempt
holds against that cpu's projection. -/
def try_preempt (sys : Sys) (g : GlobalRq) (p : Task) (this_rq : Rq) : PreemptAction :=
  if suitable_idle_cpus g p then .resched_best_idle
  else if p.policy == sched_idleprio then .ret
  else if online_cpus sys p then
    let hb := choose_busiest sys p this_rq
    if can_preempt p hb.2.1 hb.2.2.rq_deadline hb.2.2.rq_policy then
      .resched_curr hb.2.2.cpu
    else .ret
  else .ret

/-- try_preempt(p, this_rq) (UP variant): IDLEPRIO never preempts, else
test can_preempt against the single runqueue. -/
def try_preempt_up (uprq : Rq) (p : Task) : PreemptAction :=
  if p.policy == sched_idleprio then .ret
  else if can_preempt p (uprq.rq_prio : Int) uprq.rq_deadline uprq.rq_policy then
    .resched_curr uprq.cpu
  else .ret

/-- ISO_PERIOD = 5 * HZ * num_online_cpus + 1. -/
def iso_period (num_online_cpus : Nat) : Nat := 5 * hz * num_online_cpus + 1

/-- set_iso_refractory(). -/
def set_iso_refractory (g : GlobalRq) : GlobalRq := {g with iso_refractory := true}

/-- clear_iso_refractory(). -/
def clear_iso_refractory (g : GlobalRq) : GlobalRq := {g with iso_refractory := false}

/-- test_ret_isorefractory(rq): set the refractory flag above
ISO_PERIOD * sched_iso_cpu ticks, clear it with 10% hysteresis; returns
the (new) flag. -/
def test_ret_isorefractory (g : GlobalRq) (num_online_cpus sched_iso_cpu : Nat) :
    GlobalRq × Bool :=
  let g1 :=
    if !g.iso_refractory then
      (if iso_period num_online_cpus * sched_iso_cpu < g.iso_ticks
       then set_iso_refractory g else g)
    else
      (if g.iso_ticks < iso_period num_online_cpus * (sched_iso_cpu * 115 / 128)
       then clear_iso_refractory g else g)
  (g1, g1.iso_refractory)

/-- iso_tick(). -/
def iso_tick (g : GlobalRq) : GlobalRq := {g with iso_ticks := g.iso_ticks + 100}

/-- no_iso_tick(): decay iso_ticks toward 0 and drop the refractory flag
below the hysteresis threshold. -/
def no_iso_tick (g : GlobalRq) (num_online_cpus sched_iso_cpu : Nat) : GlobalRq :=
  if g.iso_ticks ≠ 0 then
    let g1 := {g with iso_ticks := g.iso_ticks - (g.iso_ticks / iso_period num_online_cpus + 1)}
    if g1.iso_refractory ∧
       g1.iso_ticks < iso_period num_online_cpus * (sched_iso_cpu * 115 / 128) then
      clear_iso_refractory g1
    else g1
  else g

/-- update_cpu_clock(rq, p, tick): the time_slice accounting part.  The
cpu-time percentage accounting (pc_user_time, pc_system_time, pc_idle_time)
updates only per-cpu statistics fields outside this model.  The decrement
runs only when rq->rq_policy != SCHED_FIFO and p is not the idle task. -/
def update_cpu_clock (rq : Rq) (p_is_idle : Bool) (_tick : Bool) : Rq :=
  let rq1 :=
    if rq.rq_policy != sched_fifo && !p_is_idle then
      let time_diff := niffy_diff ((rq.clock : Int) - (rq.rq_last_ran : Int)) 1
      {rq with rq_time_slice := rq.rq_time_slice - ns_to_us time_diff}
    else rq
  {rq1 with rq_last_ran := rq1.clock, timekeep_clock := rq1.clock}

/-- task_running_tick(rq): iso accounting, the forced reschedule of an ISO
task that hit its limit while running pseudo-rt, the SCHED_FIFO early
return, and the dither / RESCHED_US expiry tests.  The Bool is whether
TIF_NEED_RESCHED is set on rq->curr. -/
def task_running_tick (g : GlobalRq) (rq : Rq) (num_online_cpus sched_iso_cpu : Nat) :
    GlobalRq × Rq × Bool :=
  let g1 :=
    if rt_queue rq || (iso_queue rq && !g.iso_refractory) then
      (if g.iso_ticks ≤ iso_period num_online_cpus * 100 - 100 then iso_tick g else g)
    else no_iso_tick g num_online_cpus sched_iso_cpu
  let gr :=
    if iso_queue rq then
      let tr := test_ret_isorefractory g1 num_online_cpus sched_iso_cpu
      if tr.2 && rq_running_iso rq then (tr.1, {rq with rq_time_slice := 0})
      else (tr.1, rq)
    else (g1, rq)
  if gr.2.rq_policy == sched_fifo then (gr.1, gr.2, false)
  else if gr.2.dither then
    (if (half_jiffy_us : Int) < gr.2.rq_time_slice then (gr.1, gr.2, false)
     else (gr.1, {gr.2 with rq_time_slice := 0}, true))
  else if (resched_us : Int) ≤ gr.2.rq_time_slice then (gr.1, gr.2, false)
  else (gr.1, gr.2, true)

/-- prio_deadline_diff(user_prio) =
prio_ratios[user_prio] * rr_interval * (MS_TO_NS(1) / 128); the last factor
is 2^20 / 128 = 8192. -/
def prio_deadline_diff (rr_interval : Nat) (user_prio : Nat) : Nat :=
  prio_ratios user_prio * rr_interval * (ms_to_ns 1 / 128)

/-- task_deadline_diff(p). -/
def task_deadline_diff (rr_interval : Nat) (p : Task) : Nat :=
  prio_deadline_diff rr_interval (task_user_prio p)

/-- static_deadline_diff(static_prio). -/
def static_deadline_diff (rr_interval : Nat) (static_prio : Int) : Nat :=
  prio_deadline_diff rr_interval (static_prio - (max_rt_prio : Int)).toNat

/-- time_slice_expired(p): refill the slice with timeslice() and set the
virtual deadline to grq.niffies + task_deadline_diff(p). -/
def time_slice_expired (rr_interval : Nat) (niffies : Nat) (p : Task) : Task :=
  {p with
    time_slice := (timeslice rr_interval : Int),
    deadline := niffies + task_deadline_diff rr_interval p}

/-- check_deadline(p): refill when the slice dropped below RESCHED_US or
for SCHED_BATCH tasks. -/
def check_deadline (rr_interval : Nat) (niffies : Nat) (p : Task) : Task :=
  if p.time_slice < (resched_us : Int) || batch_task p then
    time_slice_expired rr_interval niffies p
  else p

/-- The steps of sched_fork before the timeslice sharing: mark running, set
the cpu, the sched_reset_on_fork handling, inherit curr->normal_prio (not a
PI-boosted prio), detach from any runqueue linkage, clear oncpu. -/
def sf_pre (curr_normal_prio cpu : Nat) (p0 : Task) : Task :=
  let pa := {p0 with state := task_running_state, cpu := cpu}
  let pb :=
    if pa.sched_reset_on_fork then
      let pc :=
        if pa.policy == sched_fifo || pa.policy == sched_rr then
          let pd := {pa with policy := sched_normal}
          {pd with normal_prio := normal_prio_of pd}
        else pa
      let pe :=
        if prio_to_nice pc.static_prio < 0 then
          let pf := {pc with static_prio := nice_to_prio 0}
          {pf with normal_prio := pf.static_prio.toNat}
        else pc
      {pe with sched_reset_on_fork := false}
    else pa
  let pg := {pb with prio := curr_normal_prio}
  let ph := {pg with queued := false}
  {ph with oncpu := false}

/-- sched_fork(p): after sf_pre, SCHED_FIFO children are done; otherwise
the parent's remaining rq_time_slice is halved and shared when at least
2 * RESCHED_US remains, else the parent's slice is zeroed, the parent is
marked to reschedule (the returned Bool) and the child is refilled through
time_slice_expired.  Both branches copy rq->rq_last_ran into
p->last_ran. -/
def sched_fork (rr_interval niffies : Nat) (rq : Rq) (curr_normal_prio cpu : Nat)
    (p0 : Task) : Rq × Task × Bool :=
  let p := sf_pre curr_normal_prio cpu p0
  if p.policy == sched_fifo then (rq, p, false)
  else if (resched_us * 2 : Int) ≤ rq.rq_time_slice then
    let rq1 := {rq with rq_time_slice := rq.rq_time_slice / 2}
    let p1 := {p with time_slice := rq1.rq_time_slice}
    (rq1, {p1 with last_ran := rq1.rq_last_ran}, false)
  else
    let rq1 := {rq with rq_time_slice := 0}
    let p1 := time_slice_expired rr_interval niffies p
    (rq1, {p1 with last_ran := rq1.rq_last_ran}, true)

/-- adjust_deadline(p, new_prio): p->deadline +=
static_deadline_diff(new_prio) - task_deadline_diff(p), u64 arithmetic, so
the possibly negative difference wraps mod 2^64. -/
def adjust_deadline (rr_interval : Nat) (p : Task) (new_prio : Int) : Task :=
  {p with deadline :=
    (((p.deadline : Int) + (static_deadline_diff rr_interval new_prio : Int)
        - (task_deadline_diff rr_interval p : Int)) % (2 ^ 64)).toNat}

/-- reset_rq_task(rq, p). -/
def reset_rq_task (rq : Rq) (p : Task) : Rq :=
  {rq with rq_policy := p.policy, rq_prio := p.prio}

/-- set_user_nice(p, nice): reject out-of-range or unchanged nice; update
clocks (time_task_grq_lock); rt-policy tasks only store the new static
priority; otherwise dequeue if queued, adjust the deadline, store the new
static priority, recompute the effective priority, and re-enqueue or
refresh the runqueue projection.  The conditional try_preempt and
resched_task calls only raise need-resched flags and are outside the
returned state. -/
def set_user_nice (rr_interval : Nat) (g : GlobalRq) (rq : Rq) (p : Task) (nice : Int)
    (sched_clock jiffies : Nat) : GlobalRq × Rq × Task :=
  if task_nice p == nice || nice < -20 || 19 < nice then (g, rq, p)
  else
    let new_static := nice_to_prio nice
    let gr := update_clocks g rq sched_clock jiffies
    if has_rt_policy p then (gr.1, gr.2, {p with static_prio := new_static})
    else
      let queued := task_queued p
      let g2 := if queued then dequeue_task gr.1 p else gr.1
      let p1 := adjust_deadline rr_interval p new_static
      let p2 := {p1 with static_prio := new_static}
      let p3 := effective_prio p2
      if queued then
        let ep := enqueue_task g2 p3
        (ep.1, gr.2, ep.2)
      else if task_running p then (g2, reset_rq_task gr.2 p3, p3)
      else (g2, gr.2, p3)

/-- activate_task(p, rq): update clocks, recompute the effective priority,
drop the uninterruptible contribution, enqueue, bump nr_running and qnr. -/
def activate_task (g : GlobalRq) (rq : Rq) (p : Task) (sched_clock jiffies : Nat) :
    GlobalRq × Rq × Task :=
  let gr := update_clocks g rq sched_clock jiffies
  let p1 := effective_prio p
  let g2 :=
    if p1.contributes_to_load then
      {gr.1 with nr_uninterruptible := gr.1.nr_uninterruptible - 1}
    else gr.1
  let ep := enqueue_task g2 p1
  ({ep.1 with nr_running := ep.1.nr_running + 1, qnr := ep.1.qnr + 1}, gr.2, ep.2)

/-- try_to_wake_up(p, state, wake_flags): return 0 untouched when p's state
misses the mask; return 0 after only setting p->state = TASK_RUNNING when p
is already queued or running; otherwise activate p, run try_preempt unless
this is a sync wakeup with no suitable idle cpu, set p running and return
1.  The first component is the C return value, the last the try_preempt
outcome when it ran. -/
def try_to_wake_up (sys : Sys) (g : GlobalRq) (rq : Rq) (p : Task)
    (state wake_flags sched_clock jiffies : Nat) :
    Nat × GlobalRq × Rq × Task × Option PreemptAction :=
  if p.state &&& state == 0 then (0, g, rq, p, none)
  else if task_queued p || task_running p then
    (0, g, rq, {p with state := task_running_state}, none)
  else
    let a := activate_task g rq p sched_clock jiffies
    let sync := wake_flags &&& wf_sync
    let act :=
      if sync == 0 || suitable_idle_cpus a.1 a.2.2 then
        some (try_preempt sys a.1 a.2.2 a.2.1)
      else none
    (1, a.1, a.2.1, {a.2.2 with state := task_running_state}, act)

/-- A plain SCHED_NORMAL nice-0 task used for concrete evaluations. -/
def sample_task : Task :=
  { policy := sched_normal, static_prio := 120, rt_priority := 0, prio := 101,
    normal_prio := 101, deadline := 777777, time_slice := 3000, last_ran := 0,
    cpus_allowed := [0], cpu := 0, state := 0, oncpu := false, queued := false,
    freezing := false, signal_pending := false, contributes_to_load := false,
    exiting := false, sched_reset_on_fork := false }

/-- An empty global runqueue for concrete evaluations. -/
def sample_grq : GlobalRq :=
  { nr_running := 0, nr_uninterruptible := 0, qnr := 0, niffies := 0,
    last_jiffy := 0, queue := fun _ => [], prio_bitmap := fun _ => false,
    iso_ticks := 0, iso_refractory := false, cpu_idle_map := fun _ => false,
    idle_cpus := false }

/-- A per-cpu runqueue running a SCHED_NORMAL task, for concrete
evaluations. -/
def sample_rq : Rq :=
  { cpu := 0, clock := 0, old_clock := 0, last_niffy := 0, rq_time_slice := 5000,
    rq_deadline := 777777, rq_prio := 101, rq_policy := sched_normal,
    rq_last_ran := 0, timekeep_clock := 0, dither := false }

/-- A one-cpu machine whose cpu 0 runs sample_rq. -/
def sample_sys : Sys :=
  { nr_cpu_ids := 1, rqs := fun _ => sample_rq, online := fun c => c == 0,
    locality := fun _ _ => 0, rr_interval := 6 }

/-- A FIFO task at rt priority 50 allowed on cpu 0, for concrete
evaluations. -/
def sample_rt_task : Task :=
  {sample_task with
    policy := sched_fifo, prio := 50, rt_priority := 49, normal_prio := 50}

/-- The same rt task but affine only to cpu 3. -/
def sample_rt_task_far : Task := {sample_rt_task with cpus_allowed := [3]}

/-- A global runqueue whose band 50 holds the cpu-3-only rt task followed
by the cpu-0 rt task. -/
def sample_rt_grq : GlobalRq :=
  {sample_grq with
     queue := fun i => if i = 50 then [sample_rt_task_far, sample_rt_task] else [],
     prio_bitmap := fun i => i == 50}

/- ===================== Theorems ===================== -/

/-- enqueue_task never changes the task's static priority. -/
lemma enqueue_task_static_prio (g : GlobalRq) (p : Task) :
    (enqueue_task g p).2.static_prio = p.static_prio := by
  simp only [enqueue_task]
  split_ifs <;> rfl

/-- effective_prio never changes the task's static priority. -/
lemma effective_prio_static_prio (p : Task) :
    (effective_prio p).static_prio = p.static_prio := by
  simp only [effective_prio]
  split_ifs <;> rfl

/-- The clamped clock delta is never negative (it is either the original
delta, forced into [1, max], or the degenerate us_to_ns 1 = 0). -/
lemma niffy_diff_nonneg (nd jd : Int) : 0 ≤ niffy_diff nd jd := by
  simp only [niffy_diff, us_to_ns]
  split_ifs with h
  · decide
  · simp only [Bool.or_eq_true, decide_eq_true_eq, not_or] at h
    omega

/-- One update_clocks call never decreases niffies. -/
lemma update_clocks_niffies_le (g : GlobalRq) (rq : Rq) (c j : Nat) :
    g.niffies ≤ (update_clocks g rq c j).1.niffies := by
  have h := niffy_diff_nonneg
    (((c : Int) - (rq.old_clock : Int)) - ((g.niffies : Int) - (rq.last_niffy : Int)))
    ((j : Int) - (g.last_jiffy : Int))
  simp only [update_clocks]
  omega

/-- C5 (code_bug evidence and the surviving invariant): the niffy_diff
clamp produces US_TO_NS(1) = 0, not the 1 us the claim (and the source's
own comment) states, because US_TO_NS right-shifts; nevertheless niffies
is monotonically non-decreasing across any sequence of update_clocks
calls, since every added delta is still nonnegative. -/
theorem c5_niffies_monotone :
    (niffy_diff 0 1 = us_to_ns 1 ∧ us_to_ns 1 = 0) ∧
    ∀ (evs : List (Nat × Nat)) (g : GlobalRq) (rq : Rq),
      g.niffies ≤ (update_clocks_run g rq evs).1.niffies := by
  refine ⟨⟨by decide, by decide⟩, ?_⟩
  intro evs
  induction evs with
  | nil => intro g rq; exact Nat.le_refl _
  | cons ev rest ih =>
    intro g rq
    calc g.niffies ≤ (update_clocks g rq ev.1 ev.2).1.niffies :=
          update_clocks_niffies_le g rq ev.1 ev.2
      _ ≤ _ := by
          rw [update_clocks_run]
          exact ih (update_clocks g rq ev.1 ev.2).1 (update_clocks g rq ev.1 ev.2).2

/-- C3 (counterexample): at rr_interval = 6, niffies = 0 and a nice-0 task,
time_slice_expired sets time_slice to 6144 us (rr_interval shifted left by
10), not rr_interval * 1000 = 6000 us, and sets the deadline offset with
factor 2^20 / 128 = 8192, not 1000000 / 128; the claimed formulas fail. -/
theorem c3_counterexample :
    ¬ ((time_slice_expired 6 0 sample_task).time_slice = (6 * 1000 : Int) ∧
       (time_slice_expired 6 0 sample_task).deadline =
         0 + prio_ratios (task_user_prio sample_task) * 6 * (1000000 / 128)) := by
  decide

/-- C3 (amended): time_slice_expired sets p->time_slice to
rr_interval * 1024 us (MS_TO_US is a shift by 10) and p->deadline to
grq.niffies + prio_ratios[user_prio(p)] * rr_interval * 8192 ns (8192 =
2^20 / 128), where prio_ratios[0] = 128 and prio_ratios[i] =
prio_ratios[i-1] * 11 / 10 (integer division) for i in 1..39. -/
theorem c3_time_slice_expired (rr_interval niffies : Nat) (p : Task) :
    (time_slice_expired rr_interval niffies p).time_slice = (rr_interval * 1024 : Int) ∧
    (time_slice_expired rr_interval niffies p).deadline =
      niffies + prio_ratios (task_user_prio p) * rr_interval * 8192 ∧
    prio_ratios 0 = 128 ∧
    ∀ i, i < 39 → prio_ratios (i + 1) = prio_ratios i * 11 / 10 := by
  refine ⟨?_, ?_, rfl, fun i _ => rfl⟩
  · simp [time_slice_expired, timeslice, ms_to_us, Nat.shiftLeft_eq]
  · simp [time_slice_expired, task_deadline_diff, prio_deadline_diff, ms_to_ns,
      Nat.shiftLeft_eq]

/-- C3 witness: the amended statement applied at rr_interval = 6,
niffies = 0, a nice-0 task, and ratio index 5. -/
theorem c3_witness :
    (time_slice_expired 6 0 sample_task).time_slice = (6 * 1024 : Int) ∧
    prio_ratios (5 + 1) = prio_ratios 5 * 11 / 10 :=
  ⟨(c3_time_slice_expired 6 0 sample_task).1,
   (c3_time_slice_expired 6 0 sample_task).2.2.2 5 (by decide)⟩

/-- sf_pre never changes the child's (copied) deadline. -/
lemma sf_pre_deadline (curr_normal_prio cpu : Nat) (p : Task) :
    (sf_pre curr_normal_prio cpu p).deadline = p.deadline := by
  simp only [sf_pre]
  split_ifs <;> rfl

/-- C4 (counterexample): with the parent's slice nearly exhausted
(rq_time_slice = 100 < 2 * RESCHED_US) and grq.niffies ahead of the
parent's deadline, the freshly refilled child's deadline is later than the
parent's, not slightly earlier. -/
theorem c4_counterexample :
    ¬ ((sched_fork 6 1000000 {sample_rq with rq_time_slice := 100} 101 0
          sample_task).2.1.deadline
        < ({sample_rq with rq_time_slice := 100} : Rq).rq_deadline) := by
  decide

/-- C4 (amended): for a child whose policy (after the reset-on-fork step)
is not SCHED_FIFO, sched_fork halves the parent's rq_time_slice and gives
the child the same halved slice when at least 2 * RESCHED_US remains,
leaving the child's copied deadline unchanged; otherwise it zeroes the
parent's slice, marks the parent to reschedule, and refills the child via
time_slice_expired (whose fresh deadline need not be earlier than the
parent's). -/
theorem c4_sched_fork (rr_interval niffies : Nat) (rq : Rq)
    (curr_normal_prio cpu : Nat) (p : Task)
    (hpol : (sf_pre curr_normal_prio cpu p).policy ≠ sched_fifo) :
    (sf_pre curr_normal_prio cpu p).deadline = p.deadline ∧
    ((resched_us * 2 : Int) ≤ rq.rq_time_slice →
      sched_fork rr_interval niffies rq curr_normal_prio cpu p =
        ({rq with rq_time_slice := rq.rq_time_slice / 2},
         {sf_pre curr_normal_prio cpu p with
            time_slice := rq.rq_time_slice / 2, last_ran := rq.rq_last_ran},
         false)) ∧
    (rq.rq_time_slice < (resched_us * 2 : Int) →
      sched_fork rr_interval niffies rq curr_normal_prio cpu p =
        ({rq with rq_time_slice := 0},
         {time_slice_expired rr_interval niffies (sf_pre curr_normal_prio cpu p) with
            last_ran := rq.rq_last_ran},
         true)) := by
  have hp : ((sf_pre curr_normal_prio cpu p).policy == sched_fifo) = false := by
    simp [hpol]
  refine ⟨sf_pre_deadline curr_normal_prio cpu p, ?_, ?_⟩
  · intro hs
    unfold sched_fork
    simp only [hp, Bool.false_eq_true, if_false]
    rw [if_pos hs]
  · intro hs
    unfold sched_fork
    simp only [hp, Bool.false_eq_true, if_false]
    rw [if_neg (by omega)]

/-- C4 witness: the amended share branch applied at the claim's own
numbers, a parent with 5000 us of slice: parent and child both end with
2500 us and the child's deadline stays the copied one. -/
theorem c4_witness :
    (resched_us * 2 : Int) ≤ sample_rq.rq_time_slice ∧
    sched_fork 6 0 sample_rq 101 0 sample_task =
      ({sample_rq with rq_time_slice := sample_rq.rq_time_slice / 2},
       {sf_pre 101 0 sample_task with
          time_slice := sample_rq.rq_time_slice / 2,
          last_ran := sample_rq.rq_last_ran},
       false) :=
  ⟨by decide,
   (c4_sched_fork 6 0 sample_rq 101 0 sample_task (by decide)).2.1 (by decide)⟩

/-- C6: a SCHED_FIFO projection is never slice-decremented: update_cpu_clock
leaves rq_time_slice untouched when rq->rq_policy == SCHED_FIFO, and
task_running_tick neither changes the slice nor requests a reschedule for a
FIFO runqueue. -/
theorem c6_fifo_tick (g : GlobalRq) (rq : Rq) (p_is_idle tick : Bool)
    (num_online_cpus sched_iso_cpu : Nat) (h : rq.rq_policy = sched_fifo) :
    (update_cpu_clock rq p_is_idle tick).rq_time_slice = rq.rq_time_slice ∧
    (task_running_tick g rq num_online_cpus sched_iso_cpu).2.1.rq_time_slice =
      rq.rq_time_slice ∧
    (task_running_tick g rq num_online_cpus sched_iso_cpu).2.2 = false := by
  have hiso : iso_queue rq = false := by
    simp [iso_queue, h, sched_fifo, sched_iso]
  refine ⟨?_, ?_, ?_⟩
  · unfold update_cpu_clock
    simp [h]
  · unfold task_running_tick
    simp [hiso, h, sched_fifo]
  · unfold task_running_tick
    simp [hiso, h, sched_fifo]

/-- C6 witness: a FIFO runqueue at priority 50 keeps its 5000 us slice and
triggers no reschedule on a tick. -/
theorem c6_witness :
    (update_cpu_clock {sample_rq with rq_policy := sched_fifo, rq_prio := 50}
        false true).rq_time_slice =
      ({sample_rq with rq_policy := sched_fifo, rq_prio := 50} : Rq).rq_time_slice ∧
    (task_running_tick sample_grq
        {sample_rq with rq_policy := sched_fifo, rq_prio := 50} 1 25).2.2 = false := by
  have h := c6_fifo_tick sample_grq
    {sample_rq with rq_policy := sched_fifo, rq_prio := 50} false true 1 25 rfl
  exact ⟨h.1, h.2.2⟩

/-- C7: an un-boosted SCHED_ISO task is enqueued at NORMAL_PRIO while the
iso controller is refractory and at ISO_PRIO (its normal_prio)
otherwise; the bitmap bit of the chosen band is set and the task is
appended to that band's list. -/
theorem c7_enqueue_iso (g : GlobalRq) (p : Task) (hpol : p.policy = sched_iso)
    (hboost : ¬ p.prio < max_rt_prio) (hnp : p.normal_prio = iso_prio) :
    (enqueue_task g p).2.prio = (if g.iso_refractory then normal_prio else iso_prio) ∧
    (enqueue_task g p).1.queue (enqueue_task g p).2.prio =
      g.queue (enqueue_task g p).2.prio ++ [(enqueue_task g p).2] ∧
    (enqueue_task g p).1.prio_bitmap (enqueue_task g p).2.prio = true := by
  have hrt : rt_task p = false := by
    simp [rt_task, rt_prio, hboost]
  have hidle : idleprio_task p = false := by
    simp [idleprio_task, hpol, sched_iso, sched_idleprio]
  have hiso : iso_task p = true := by simp [iso_task, hpol]
  cases hr : g.iso_refractory
  · unfold enqueue_task isoprio_suitable
    simp [hrt, hidle, hiso, hr, hnp]
  · unfold enqueue_task isoprio_suitable
    simp [hrt, hidle, hiso, hr]

/-- C7 witness: applying the theorem with the iso controller not
refractory; the task lands in band ISO_PRIO. -/
theorem c7_witness :
    (enqueue_task sample_grq
        {sample_task with policy := sched_iso, prio := 100, normal_prio := 100}).2.prio =
      (if sample_grq.iso_refractory then normal_prio else iso_prio) :=
  (c7_enqueue_iso sample_grq
    {sample_task with policy := sched_iso, prio := 100, normal_prio := 100}
    rfl (by decide) rfl).1

/-- C2: can_preempt(p, prio, deadline, policy) holds iff p's effective
priority number is strictly lower, or equal with a strictly earlier
deadline; and when try_preempt finds no suitable idle cpu (for a
non-IDLEPRIO waker with an online candidate), it reschedules the chosen
busiest cpu's current task exactly when can_preempt holds against that
cpu's projection. -/
theorem c2_can_preempt_try_preempt :
    (∀ (p : Task) (prio : Int) (deadline : Nat) (policy : Nat),
       can_preempt p prio deadline policy = true ↔
         ((p.prio : Int) < prio ∨ ((p.prio : Int) = prio ∧ p.deadline < deadline))) ∧
    (∀ (sys : Sys) (g : GlobalRq) (p : Task) (this_rq : Rq),
       suitable_idle_cpus g p = false →
       p.policy ≠ sched_idleprio →
       online_cpus sys p = true →
       (try_preempt sys g p this_rq =
          .resched_curr (choose_busiest sys p this_rq).2.2.cpu ↔
        can_preempt p (choose_busiest sys p this_rq).2.1
          (choose_busiest sys p this_rq).2.2.rq_deadline
          (choose_busiest sys p this_rq).2.2.rq_policy = true)) := by
  constructor
  · intro p prio dl pol
    unfold can_preempt
    split_ifs with h1 h2 h3
    · simpa using Or.inl h1
    · simp only [Bool.false_eq_true, false_iff]
      rintro (h | ⟨he, _⟩) <;> omega
    · simp only [deadline_before, Bool.not_eq_true', decide_eq_false_iff_not] at h3
      simp only [Bool.false_eq_true, false_iff]
      rintro (h | ⟨he, hd⟩)
      · omega
      · exact h3 hd
    · simp only [deadline_before, Bool.not_eq_true', decide_eq_false_iff_not,
        not_not] at h3
      simp only [true_iff]
      exact Or.inr ⟨by omega, by simpa [deadline_before] using h3⟩
  · intro sys g p this_rq hno hpol honl
    have hpol' : (p.policy == sched_idleprio) = false := by simp [hpol]
    unfold try_preempt
    simp only [hno, Bool.false_eq_true, if_false, hpol', honl, if_true]
    cases hc : can_preempt p (choose_busiest sys p this_rq).2.1
        (choose_busiest sys p this_rq).2.2.rq_deadline
        (choose_busiest sys p this_rq).2.2.rq_policy
    · simp [hc]
    · simp [hc]

/-- C2 witness: a nice-0 waker with deadline 5 against a one-cpu machine
whose cpu runs a deadline-777777 NORMAL task. -/
theorem c2_witness :
    (can_preempt {sample_task with deadline := 5} 101 777777 0 = true ↔
      ((({sample_task with deadline := 5} : Task).prio : Int) < 101 ∨
       ((({sample_task with deadline := 5} : Task).prio : Int) = 101 ∧
        ({sample_task with deadline := 5} : Task).deadline < 777777))) ∧
    (try_preempt sample_sys sample_grq {sample_task with deadline := 5} sample_rq =
       .resched_curr
         (choose_busiest sample_sys {sample_task with deadline := 5} sample_rq).2.2.cpu ↔
     can_preempt {sample_task with deadline := 5}
       (choose_busiest sample_sys {sample_task with deadline := 5} sample_rq).2.1
       (choose_busiest sample_sys {sample_task with deadline := 5} sample_rq).2.2.rq_deadline
       (choose_busiest sample_sys {sample_task with deadline := 5} sample_rq).2.2.rq_policy
       = true) :=
  ⟨c2_can_preempt_try_preempt.1 {sample_task with deadline := 5} 101 777777 0,
   c2_can_preempt_try_preempt.2 sample_sys sample_grq
     {sample_task with deadline := 5} sample_rq (by decide) (by decide) (by decide)⟩

/-- C8: an IDLEPRIO task never preempts: with no suitable idle cpu,
try_preempt returns without marking any cpu; the UP variant returns
unconditionally for IDLEPRIO. -/
theorem c8_idleprio_no_preempt (sys : Sys) (g : GlobalRq) (p : Task)
    (this_rq uprq : Rq) (hpol : p.policy = sched_idleprio)
    (hno : suitable_idle_cpus g p = false) :
    try_preempt sys g p this_rq = .ret ∧ try_preempt_up uprq p = .ret := by
  constructor
  · unfold try_preempt
    simp [hno, hpol]
  · unfold try_preempt_up
    simp [hpol]

/-- C8 witness: an IDLEPRIO task on a machine with no idle cpu. -/
theorem c8_witness :
    try_preempt sample_sys sample_grq
        {sample_task with policy := sched_idleprio, prio := 102, normal_prio := 102}
        sample_rq = .ret ∧
    try_preempt_up sample_rq
        {sample_task with policy := sched_idleprio, prio := 102, normal_prio := 102}
      = .ret :=
  c8_idleprio_no_preempt sample_sys sample_grq
    {sample_task with policy := sched_idleprio, prio := 102, normal_prio := 102}
    sample_rq sample_rq rfl (by decide)

/-- C9: the nice round trip: for a non-rt-policy task and nice in
[-20, 19], set_user_nice followed by task_nice returns the same nice. -/
theorem c9_nice_roundtrip (rr_interval : Nat) (g : GlobalRq) (rq : Rq) (p : Task)
    (nice : Int) (sched_clock jiffies : Nat)
    (hpol : is_rt_policy p.policy = false) (h1 : -20 ≤ nice) (h2 : nice ≤ 19) :
    task_nice (set_user_nice rr_interval g rq p nice sched_clock jiffies).2.2 = nice := by
  simp only [set_user_nice]
  split_ifs with hg hrt hq hr
  · simp only [Bool.or_eq_true, beq_iff_eq, decide_eq_true_eq] at hg
    rcases hg with (hg | hg) | hg
    · exact hg
    · omega
    · omega
  · rw [has_rt_policy, hpol] at hrt
    simp at hrt
  · dsimp only
    rw [task_nice, enqueue_task_static_prio, effective_prio_static_prio]
    simp only [prio_to_nice, nice_to_prio, max_rt_prio]
    push_cast
    ring
  · dsimp only
    rw [task_nice, effective_prio_static_prio]
    simp only [prio_to_nice, nice_to_prio, max_rt_prio]
    push_cast
    ring
  · dsimp only
    rw [task_nice, effective_prio_static_prio]
    simp only [prio_to_nice, nice_to_prio, max_rt_prio]
    push_cast
    ring

/-- C9 witness: setting nice 5 on a nice-0 NORMAL task reads back 5. -/
theorem c9_witness :
    task_nice (set_user_nice 6 sample_grq sample_rq sample_task 5 0 0).2.2 = 5 :=
  c9_nice_roundtrip 6 sample_grq sample_rq sample_task 5 0 0 (by decide)
    (by decide) (by decide)

/-- C10: a wake-up whose state mask matches but whose target is already
queued or running returns 0 and performs no activation: the global
runqueue (hence nr_running and qnr), the per-cpu runqueue and every task
field except state are unchanged; only p->state becomes TASK_RUNNING and
no preemption is attempted. -/
theorem c10_wake_already_active (sys : Sys) (g : GlobalRq) (rq : Rq) (p : Task)
    (state wake_flags sched_clock jiffies : Nat)
    (hstate : p.state &&& state ≠ 0)
    (hqr : (task_queued p || task_running p) = true) :
    try_to_wake_up sys g rq p state wake_flags sched_clock jiffies =
      (0, g, rq, {p with state := task_running_state}, none) := by
  have h1 : (p.state &&& state == 0) = false := by
    simp [hstate]
  unfold try_to_wake_up
  simp [h1, hqr]

/-- fnb_go either runs out (returning limit) or lands on a set bit at or
after the start index and below the limit. -/
lemma fnb_go_cases (bm : Nat → Bool) (limit : Nat) :
    ∀ (fuel idx : Nat),
      fnb_go bm limit fuel idx = limit ∨
      (idx ≤ fnb_go bm limit fuel idx ∧ fnb_go bm limit fuel idx < limit ∧
       bm (fnb_go bm limit fuel idx) = true) := by
  intro fuel
  induction fuel with
  | zero => intro idx; left; rfl
  | succ n ih =>
    intro idx
    rw [fnb_go]
    by_cases h1 : limit ≤ idx
    · left
      simp [h1]
    · rw [if_neg h1]
      by_cases h2 : bm idx = true
      · right
        rw [if_pos h2]
        exact ⟨Nat.le_refl idx, by omega, h2⟩
      · rw [if_neg h2]
        rcases ih (idx + 1) with h | ⟨ha, hb, hc⟩
        · left; exact h
        · right; exact ⟨by omega, hb, hc⟩

/-- With a set bit at b below the limit and enough fuel, fnb_go stops at or
before b. -/
lemma fnb_go_le (bm : Nat → Bool) (limit b : Nat) (hbm : bm b = true)
    (hbl : b < limit) :
    ∀ (fuel idx : Nat), idx ≤ b → b - idx < fuel → fnb_go bm limit fuel idx ≤ b := by
  intro fuel
  induction fuel with
  | zero => intro idx h1 h2; omega
  | succ n ih =>
    intro idx h1 h2
    rw [fnb_go]
    by_cases hl : limit ≤ idx
    · omega
    · rw [if_neg hl]
      by_cases h2b : bm idx = true
      · rw [if_pos h2b]; exact h1
      · rw [if_neg h2b]
        have hne : idx ≠ b := by
          intro he; rw [he] at h2b; exact h2b hbm
        exact ih (idx + 1) (by omega) (by omega)

/-- find_next_bit, started at or before a set bit b below the limit, lands
on a set bit j with idx ≤ j ≤ b. -/
lemma find_next_bit_props (bm : Nat → Bool) (limit b idx : Nat)
    (hbm : bm b = true) (hbl : b < limit) (h1 : idx ≤ b) :
    idx ≤ find_next_bit bm limit idx ∧ find_next_bit bm limit idx ≤ b ∧
      bm (find_next_bit bm limit idx) = true := by
  have hle : find_next_bit bm limit idx ≤ b := by
    rw [find_next_bit]
    exact fnb_go_le bm limit b hbm hbl (limit - idx) idx h1 (by omega)
  rcases fnb_go_cases bm limit (limit - idx) idx with h | ⟨ha, _, hc⟩
  · rw [find_next_bit] at hle
    omega
  · rw [find_next_bit]
    exact ⟨ha, hle, hc⟩

/-- Scanning an rt band whose first affinity-acceptable task is q takes q
immediately, whatever the accumulator. -/
lemma edt_scan_rt (rr_interval : Nat) (locality : Nat → Nat → Nat) (cpu idx : Nat)
    (hidx : idx < max_rt_prio) :
    ∀ (l : List Task) (acc : Option Task × Nat) (q : Task),
      first_affine cpu l = some q →
      edt_scan rr_interval locality cpu idx l acc = Sum.inl q := by
  intro l
  induction l with
  | nil =>
    intro acc q h
    simp [first_affine] at h
  | cons t rest ih =>
    intro acc q h
    cases ht : t.cpus_allowed.contains cpu
    · have ht' : ¬ (fun x : Task => x.cpus_allowed.contains cpu) t = true := by
        show ¬ t.cpus_allowed.contains cpu = true
        rw [ht]
        exact Bool.false_ne_true
      rw [first_affine, List.find?_cons_of_neg rest ht'] at h
      have hn : needs_other_cpu t cpu = true := by rw [needs_other_cpu, ht]; rfl
      rw [edt_scan, if_pos hn]
      exact ih acc q (by rw [first_affine]; exact h)
    · have ht' : (fun x : Task => x.cpus_allowed.contains cpu) t = true := ht
      rw [first_affine, List.find?_cons_of_pos rest ht'] at h
      have hn : needs_other_cpu t cpu = false := by rw [needs_other_cpu, ht]; rfl
      rw [edt_scan, if_neg (by simp [hn]), if_pos hidx]
      exact congrArg Sum.inl (Option.some_injective _ h)

/-- Scanning a band with no affinity-acceptable task leaves the accumulator
untouched. -/
lemma edt_scan_none (rr_interval : Nat) (locality : Nat → Nat → Nat) (cpu idx : Nat) :
    ∀ (l : List Task) (acc : Option Task × Nat),
      first_affine cpu l = none →
      edt_scan rr_interval locality cpu idx l acc = Sum.inr acc := by
  intro l
  induction l with
  | nil => intro acc _; rfl
  | cons t rest ih =>
    intro acc h
    rw [first_affine, List.find?_eq_none] at h
    have ht : (t.cpus_allowed.contains cpu) = false := by
      have h0 := h t (List.mem_cons_self t rest)
      revert h0
      cases t.cpus_allowed.contains cpu <;> simp
    have hn : needs_other_cpu t cpu = true := by rw [needs_other_cpu, ht]; rfl
    rw [edt_scan, if_pos hn]
    exact ih acc (by
      rw [first_affine, List.find?_eq_none]
      intro x hx
      exact h x (List.mem_cons_of_mem t hx))

/-- The retry loop of earliest_deadline_task, entered at or before the
lowest rt band b that holds an affinity-acceptable task, takes the first
acceptable task of b. -/
lemma edt_go_rt_finds (rr_interval : Nat) (locality : Nat → Nat → Nat)
    (g : GlobalRq) (rq : Rq) (b : Nat) (p : Task)
    (hb : b < max_rt_prio) (hbm : g.prio_bitmap b = true)
    (hfa : first_affine rq.cpu (g.queue b) = some p)
    (hlow : ∀ i, i < b → first_affine rq.cpu (g.queue i) = none) :
    ∀ (fuel idx e0 : Nat), idx ≤ b → b - idx < fuel →
      edt_go rr_interval locality g rq fuel idx none e0 =
        (some (take_task g rq p).2, (take_task g rq p).1) := by
  have hmrp : max_rt_prio = 100 := rfl
  have hpl : prio_limit = 103 := rfl
  intro fuel
  induction fuel with
  | zero => intro idx e0 h1 h2; omega
  | succ n ih =>
    intro idx e0 h1 h2
    have hblim : b < prio_limit := by omega
    obtain ⟨hj1, hj2, hj3⟩ :=
      find_next_bit_props g.prio_bitmap prio_limit b idx hbm hblim h1
    rw [edt_go]
    rw [if_neg (by omega)]
    by_cases hjb : find_next_bit g.prio_bitmap prio_limit idx = b
    · rw [hjb, edt_scan_rt rr_interval locality rq.cpu b hb (g.queue b) (none, e0) p hfa]
    · have hjlt : find_next_bit g.prio_bitmap prio_limit idx < b := by omega
      rw [edt_scan_none rr_interval locality rq.cpu
            (find_next_bit g.prio_bitmap prio_limit idx)
            (g.queue (find_next_bit g.prio_bitmap prio_limit idx)) (none, e0)
            (hlow _ hjlt)]
      dsimp only
      rw [if_pos (by omega)]
      exact ih (find_next_bit g.prio_bitmap prio_limit idx + 1) e0 (by omega) (by omega)

/-- C1: when some rt band holds a task whose affinity admits rq's cpu,
earliest_deadline_task returns the first acceptable task (in list order)
of the lowest such band — skipping tasks whose affinity excludes the cpu —
and removes it from the global runqueue via take_task. -/
theorem c1_edt_rt_band (rr_interval : Nat) (locality : Nat → Nat → Nat)
    (g : GlobalRq) (rq : Rq) (idle : Task) (b : Nat) (p : Task)
    (hb : b < max_rt_prio) (hbm : g.prio_bitmap b = true)
    (hfa : first_affine rq.cpu (g.queue b) = some p)
    (hlow : ∀ i, i < b → first_affine rq.cpu (g.queue i) = none) :
    earliest_deadline_task rr_interval locality g rq idle =
      ((take_task g rq p).2, (take_task g rq p).1) := by
  rw [earliest_deadline_task,
    edt_go_rt_finds rr_interval locality g rq b p hb hbm hfa hlow prio_limit 0 0
      (Nat.zero_le b) (by have : max_rt_prio = 100 := rfl; have : prio_limit = 103 := rfl; omega)]

/-- C1 witness: a FIFO task at rt priority 50, queued behind a task whose
affinity excludes cpu 0, is the one taken from band 50. -/
theorem c1_witness :
    earliest_deadline_task 6 (fun _ _ => 0) sample_rt_grq sample_rq
        {sample_task with prio := 103} =
      ((take_task sample_rt_grq sample_rq sample_rt_task).2,
       (take_task sample_rt_grq sample_rq sample_rt_task).1) :=
  c1_edt_rt_band 6 (fun _ _ => 0) sample_rt_grq sample_rq
    {sample_task with prio := 103} 50 sample_rt_task
    (by decide) (by decide) (by decide) (by decide)

/-- C10 witness: waking an already-queued interruptible task changes only
its state. -/
theorem c10_witness :
    try_to_wake_up sample_sys sample_grq sample_rq
        {sample_task with state := 1, queued := true} 1 0 0 0 =
      (0, sample_grq, sample_rq,
       {{sample_task with state := 1, queued := true} with state := task_running_state},
       none) :=
  c10_wake_already_active sample_sys sample_grq sample_rq
    {sample_task with state := 1, queued := true} 1 0 0 0 (by decide) (by decide)

end BFS
